import Mathlib

/-!
Verification development for the gesture-hud repository.

The Python sources are shallowly embedded: Python floats become exact
rationals (ℚ), `time.time()` becomes an explicit `now : ℚ` parameter,
mutable objects become explicit state records threaded through the
functions, and operations whose source can raise (the unguarded
division in `Particle.update`) return `Option`.
-/

namespace GestureHud

/-! ## Geometry (src/vision/hands.py) -/

/-- `Point` from src/vision/hands.py: a 2D point with normalized coordinates. -/
structure Point where
  x : ℚ
  y : ℚ
deriving DecidableEq, Repr

/-- Squared Euclidean distance between two points.  The source's
`Point.distance_to` is `sqrt` of this quantity; comparisons of
`distance_to` with a nonnegative bound are phrased below on the square
(see `distance_to_lt_iff`). -/
def Point.distance_sq (p q : Point) : ℚ :=
  (p.x - q.x) ^ 2 + (p.y - q.y) ^ 2

/-- The source's `Point.distance_to` is the real square root of
`distance_sq`; comparing it against a positive bound is equivalent to
comparing the (computable) squared distance against the squared bound,
which is how the comparisons below are phrased. -/
theorem distance_to_lt_iff (p q : Point) (c : ℚ) (hc : 0 < c) :
    Real.sqrt ((p.distance_sq q : ℚ) : ℝ) < (c : ℝ) ↔ p.distance_sq q < c ^ 2 := by
  rw [Real.sqrt_lt' (by exact_mod_cast hc)]
  constructor
  · intro h
    exact_mod_cast h
  · intro h
    exact_mod_cast h

/-- `Finger` from src/vision/hands.py. -/
inductive Finger
  | THUMB
  | INDEX
  | MIDDLE
  | RING
  | PINKY
deriving DecidableEq, Repr

/-- The five fingers, in the order used by `num_fingers_extended`. -/
def allFingers : List Finger :=
  [Finger.THUMB, Finger.INDEX, Finger.MIDDLE, Finger.RING, Finger.PINKY]

/-- `HandData` from src/vision/hands.py, restricted to the fields the
gesture recognizer and tracker read.  `finger_extended` is the source's
dict accessed through `.get(finger, False)`, hence a total Bool-valued
function; `center` is the palm-center property (mean of the four MCP
joints), carried here as a field because no claim depends on the
averaging of landmarks. -/
structure HandData where
  finger_extended : Finger → Bool
  wrist : Point
  thumb_tip : Point
  index_tip : Point
  center : Point

/-- `HandData.num_fingers_extended` from src/vision/hands.py. -/
def HandData.num_fingers_extended (h : HandData) : ℕ :=
  (allFingers.filter (fun f => h.finger_extended f)).length

/-! ## Gesture recognizer (src/gestures/recognizer.py) -/

/-- `GestureType` from src/gestures/recognizer.py. -/
inductive GestureType
  | NONE
  | FIST
  | OPEN_PALM
  | POINT
  | PINCH
  | THUMBS_UP
  | PEACE
deriving DecidableEq, Repr

/-- `GestureResult` from src/gestures/recognizer.py. -/
structure GestureResult where
  gesture : GestureType
  confidence : ℚ
  hand_data : HandData

/-- `GestureRecognizer._is_pinch`: thumb tip within distance 0.05 of the
index tip.  The source compares the Euclidean distance with 0.05; here
the equivalent squared comparison keeps the definition computable
(see `distance_to_lt_iff`). -/
def is_pinch (h : HandData) : Bool :=
  decide (h.thumb_tip.distance_sq h.index_tip < (5 / 100 : ℚ) ^ 2)

/-- `GestureRecognizer._is_thumb_up_orientation`: thumb tip significantly
above the wrist. -/
def is_thumb_up_orientation (h : HandData) : Bool :=
  decide (h.wrist.y - h.thumb_tip.y > 8 / 100)

/-- `GestureRecognizer.classify` from src/gestures/recognizer.py.  The
source's fall-through of the nested THUMBS_UP test (outer condition holds
but orientation fails) is rendered as the flattened conjunction guarding
that branch. -/
def classify (h : HandData) : GestureResult :=
  let ext := h.finger_extended
  let num := h.num_fingers_extended
  if num = 0 then
    { gesture := GestureType.FIST, confidence := 9 / 10, hand_data := h }
  else if num = 5 then
    { gesture := GestureType.OPEN_PALM, confidence := 9 / 10, hand_data := h }
  else if is_pinch h then
    { gesture := GestureType.PINCH, confidence := 85 / 100, hand_data := h }
  else if ext Finger.THUMB ∧ num = 1 ∧ is_thumb_up_orientation h then
    { gesture := GestureType.THUMBS_UP, confidence := 85 / 100, hand_data := h }
  else if ext Finger.INDEX ∧ num = 1 then
    { gesture := GestureType.POINT, confidence := 9 / 10, hand_data := h }
  else if ext Finger.INDEX ∧ ext Finger.THUMB ∧ num = 2 then
    { gesture := GestureType.POINT, confidence := 8 / 10, hand_data := h }
  else if ext Finger.INDEX ∧ ext Finger.MIDDLE ∧ num = 2 then
    { gesture := GestureType.PEACE, confidence := 85 / 100, hand_data := h }
  else
    { gesture := GestureType.NONE, confidence := 5 / 10, hand_data := h }

/-! ## Gesture tracker (src/gestures/tracker.py) -/

/-- `GestureEvent` from src/gestures/tracker.py. -/
inductive GestureEvent
  | NONE
  | TAP
  | HOLD_START
  | HOLD_END
  | SWIPE_LEFT
  | SWIPE_RIGHT
  | SWIPE_UP
  | SWIPE_DOWN
deriving DecidableEq, Repr

/-- `GesturesConfig` from src/config.py (gesture thresholds). -/
structure GesturesConfig where
  swipe_threshold : ℚ := 15 / 100
  hold_duration : ℚ := 5 / 10
  tap_max_duration : ℚ := 3 / 10
  debounce_frames : ℕ := 5
deriving Repr

/-- The mutable fields of `GestureTracker` (src/gestures/tracker.py).
The position history is a deque of (hand center, timestamp) pairs with
`maxlen=30`, newest last. -/
structure TrackerState where
  current_gesture : GestureType := GestureType.NONE
  gesture_start_time : ℚ := 0
  is_holding : Bool := false
  debounce_counter : ℕ := 0
  pending_gesture : GestureType := GestureType.NONE
  position_history : List (Point × ℚ) := []
deriving DecidableEq, Repr

/-- `GestureState` from src/gestures/tracker.py. -/
structure GestureState where
  current_gesture : GestureType := GestureType.NONE
  event : GestureEvent := GestureEvent.NONE
  gesture_start_time : ℚ := 0
  is_holding : Bool := false
  hand_center : Option Point := none
  index_tip : Option Point := none
deriving DecidableEq, Repr

/-- Append to a `deque(maxlen=30)`: drop from the front once the length
would exceed 30. -/
def pushHistory (h : List (Point × ℚ)) (e : Point × ℚ) : List (Point × ℚ) :=
  let h1 := h ++ [e]
  if 30 < h1.length then h1.drop (h1.length - 30) else h1

/-- `GestureTracker._detect_swipe` from src/gestures/tracker.py. -/
def detect_swipe (cfg : GesturesConfig) (hist : List (Point × ℚ)) : GestureEvent :=
  if hist.length < 5 then GestureEvent.NONE
  else
    match hist.head?, hist.getLast? with
    | some (oldest_pos, oldest_time), some (recent_pos, recent_time) =>
      let dt := recent_time - oldest_time
      if dt < 1 / 10 ∨ dt > 1 / 2 then GestureEvent.NONE
      else
        let dx := recent_pos.x - oldest_pos.x
        let dy := recent_pos.y - oldest_pos.y
        let threshold := cfg.swipe_threshold
        if |dx| > threshold ∧ |dx| > |dy| then
          if dx > 0 then GestureEvent.SWIPE_RIGHT else GestureEvent.SWIPE_LEFT
        else if |dy| > threshold ∧ |dy| > |dx| then
          if dy > 0 then GestureEvent.SWIPE_DOWN else GestureEvent.SWIPE_UP
        else GestureEvent.NONE
    | _, _ => GestureEvent.NONE

/-- `GestureTracker._check_tap` from src/gestures/tracker.py, with the
tracker's `_gesture_start_time` and `now` passed explicitly. -/
def check_tap (cfg : GesturesConfig) (start : ℚ) (now : ℚ) : Bool :=
  if start = 0 then false
  else
    let duration := now - start
    decide (0 < duration ∧ duration < cfg.tap_max_duration)

/-- `GestureTracker.update` from src/gestures/tracker.py.  Returns the
tracker state after the call together with the returned `GestureState`.
In the source, `event` starts as NONE and a detected swipe overwrites it
(also clearing the history); since the detected swipe is NONE exactly
when nothing is detected, `event` after the swipe check equals the
detection result itself. -/
def update (cfg : GesturesConfig) (s : TrackerState) (gr : Option GestureResult)
    (now : ℚ) : TrackerState × GestureState :=
  match gr with
  | none =>
    -- No hand detected: reset state
    if s.current_gesture ≠ GestureType.NONE then
      if s.is_holding then
        ({ s with is_holding := false, current_gesture := GestureType.NONE },
         { current_gesture := GestureType.NONE, event := GestureEvent.HOLD_END })
      else if check_tap cfg s.gesture_start_time now then
        ({ s with current_gesture := GestureType.NONE },
         { current_gesture := GestureType.NONE, event := GestureEvent.TAP })
      else
        ({ s with current_gesture := GestureType.NONE },
         { current_gesture := GestureType.NONE, event := GestureEvent.NONE })
    else
      (s, { current_gesture := GestureType.NONE, event := GestureEvent.NONE })
  | some r =>
    let new_gesture := r.gesture
    let center := r.hand_data.center
    let hist1 := pushHistory s.position_history (center, now)
    -- Check for swipe regardless of gesture type
    let event1 := detect_swipe cfg hist1
    let hist2 := if event1 ≠ GestureEvent.NONE then [] else hist1
    -- Debounce gesture changes
    if new_gesture ≠ s.current_gesture then
      let counter :=
        if new_gesture = s.pending_gesture then s.debounce_counter + 1 else 1
      let pending :=
        if new_gesture = s.pending_gesture then s.pending_gesture else new_gesture
      if cfg.debounce_frames ≤ counter then
        -- Gesture change confirmed
        let event2 :=
          if s.is_holding then GestureEvent.HOLD_END
          else if check_tap cfg s.gesture_start_time now then GestureEvent.TAP
          else event1
        let holding2 := if s.is_holding then false else s.is_holding
        ({ current_gesture := new_gesture, gesture_start_time := now,
           is_holding := holding2, debounce_counter := 0,
           pending_gesture := pending, position_history := hist2 },
         { current_gesture := new_gesture, event := event2,
           gesture_start_time := now, is_holding := holding2,
           hand_center := some center, index_tip := some r.hand_data.index_tip })
      else
        ({ s with
            debounce_counter := counter, pending_gesture := pending,
            position_history := hist2 },
         { current_gesture := s.current_gesture, event := event1,
           gesture_start_time := s.gesture_start_time, is_holding := s.is_holding,
           hand_center := some center, index_tip := some r.hand_data.index_tip })
    else
      -- Check for hold
      if ¬ s.is_holding ∧ s.current_gesture ≠ GestureType.NONE ∧
          cfg.hold_duration ≤ now - s.gesture_start_time then
        let event2 := if event1 = GestureEvent.NONE then GestureEvent.HOLD_START else event1
        ({ s with
            debounce_counter := 0, pending_gesture := GestureType.NONE,
            is_holding := true, position_history := hist2 },
         { current_gesture := s.current_gesture, event := event2,
           gesture_start_time := s.gesture_start_time, is_holding := true,
           hand_center := some center, index_tip := some r.hand_data.index_tip })
      else
        ({ s with
            debounce_counter := 0, pending_gesture := GestureType.NONE,
            position_history := hist2 },
         { current_gesture := s.current_gesture, event := event1,
           gesture_start_time := s.gesture_start_time, is_holding := s.is_holding,
           hand_center := some center, index_tip := some r.hand_data.index_tip })

/-- Iterated `update` with the same classification result, one call per
timestamp in the list (timestamps in call order). -/
def iterUpdate (cfg : GesturesConfig) (s : TrackerState) (gr : Option GestureResult) :
    List ℚ → TrackerState
  | [] => s
  | t :: ts => iterUpdate cfg (update cfg s gr t).1 gr ts

/-! ## Particle engine (src/particles/engine.py) -/

/-- `Particle` from src/particles/engine.py, restricted to the fields the
physics update and the liveness check read (`color` and `shape` are only
used by rendering and are omitted). -/
structure Particle where
  x : ℚ := 0
  y : ℚ := 0
  vx : ℚ := 0
  vy : ℚ := 0
  ax : ℚ := 0
  ay : ℚ := 0
  size : ℚ := 3
  lifetime : ℚ := 1
  age : ℚ := 0
  alpha : ℚ := 1
  decay_rate : ℚ := 1
  size_decay : ℚ := 0
  gravity : ℚ := 0
  drag : ℚ := 0
deriving DecidableEq, Repr

/-- `Particle.alive` from src/particles/engine.py. -/
def Particle.alive (p : Particle) : Bool :=
  decide (p.age < p.lifetime ∧ p.alpha > 1 / 100 ∧ p.size > 1 / 2)

/-- `Particle.update` from src/particles/engine.py.  The alpha
recomputation divides `age / lifetime` with no zero guard; in Python a
particle with `lifetime = 0` makes this raise `ZeroDivisionError`, which
is modeled as `none`. -/
def Particle.update (p : Particle) (dt : ℚ) : Option Particle :=
  let v1 :=
    if p.drag > 0 then
      let drag_factor := max 0 (1 - p.drag * dt)
      (p.vx * drag_factor, p.vy * drag_factor)
    else (p.vx, p.vy)
  let vy2 := v1.2 + p.gravity * dt
  let vx3 := v1.1 + p.ax * dt
  let vy3 := vy2 + p.ay * dt
  let x1 := p.x + vx3 * dt
  let y1 := p.y + vy3 * dt
  let age1 := p.age + dt
  if p.lifetime = 0 then none
  else
    some { p with
            x := x1, y := y1, vx := vx3, vy := vy3, age := age1,
            alpha := max 0 (1 - age1 / p.lifetime * p.decay_rate),
            size := max 0 (p.size - p.size_decay * dt) }

/-- `ParticleEngine` (src/particles/engine.py): capacity plus the current
particle list. -/
structure ParticleEngine where
  max_particles : ℕ := 2000
  particles : List Particle := []
deriving DecidableEq, Repr

/-- `ParticleEngine.count`. -/
def ParticleEngine.count (e : ParticleEngine) : ℕ :=
  e.particles.length

/-- `ParticleEngine.emit` from src/particles/engine.py: extend with the
batch truncated to the remaining space (`particles[:space]`); when there
is no space, return unchanged. -/
def ParticleEngine.emit (e : ParticleEngine) (batch : List Particle) : ParticleEngine :=
  let space : ℤ := (e.max_particles : ℤ) - e.particles.length
  if space ≤ 0 then e
  else { e with particles := e.particles ++ batch.take space.toNat }

/-- The per-particle update loop of `ParticleEngine.update`: `none` as
soon as any particle's update raises. -/
def updateAll (dt : ℚ) : List Particle → Option (List Particle)
  | [] => some []
  | p :: ps =>
    match p.update dt, updateAll dt ps with
    | some q, some qs => some (q :: qs)
    | _, _ => none

/-- `ParticleEngine.update` from src/particles/engine.py: advance every
particle, then cull the dead ones. -/
def ParticleEngine.update (e : ParticleEngine) (dt : ℚ) : Option ParticleEngine :=
  match updateAll dt e.particles with
  | none => none
  | some ps => some { e with particles := ps.filter Particle.alive }

/-! ## Mana and cooldowns (src/spells/registry.py) -/

/-- `ManaSystem` from src/spells/registry.py. -/
structure ManaSystem where
  max_mana : ℤ := 100
  current_mana : ℚ := 100
  regen_rate : ℚ := 8
deriving DecidableEq, Repr

/-- `ManaSystem.can_cast`. -/
def ManaSystem.can_cast (m : ManaSystem) (cost : ℤ) : Bool :=
  decide ((cost : ℚ) ≤ m.current_mana)

/-- `ManaSystem.spend`: deduct on success, leave untouched and report
failure when the pool is short. -/
def ManaSystem.spend (m : ManaSystem) (cost : ℤ) : ManaSystem × Bool :=
  if m.current_mana < (cost : ℚ) then (m, false)
  else ({ m with current_mana := m.current_mana - cost }, true)

/-- `ManaSystem.regenerate`. -/
def ManaSystem.regenerate (m : ManaSystem) (dt : ℚ) : ManaSystem :=
  { m with current_mana := min (m.max_mana : ℚ) (m.current_mana + m.regen_rate * dt) }

/-- `SpellCooldown` from src/spells/registry.py: the dict is modeled as
an association list whose first binding for a name is its current value
(`trigger` prepends the fresh binding, matching dict assignment under
`lookup`). -/
structure SpellCooldown where
  cooldowns : List (String × ℚ) := []
deriving DecidableEq, Repr

/-- `SpellCooldown.is_ready`: ready when `now` has reached the stored
timestamp, with 0 as the default for unseen names. -/
def SpellCooldown.is_ready (c : SpellCooldown) (spell_name : String) (now : ℚ) : Bool :=
  decide ((c.cooldowns.lookup spell_name).getD 0 ≤ now)

/-- `SpellCooldown.trigger`: store `now + duration` as the name's
ready-timestamp. -/
def SpellCooldown.trigger (c : SpellCooldown) (spell_name : String) (duration : ℚ)
    (now : ℚ) : SpellCooldown :=
  { cooldowns := (spell_name, now + duration) :: c.cooldowns }

/-! ## Spell registry (src/spells/registry.py, src/spells/base.py,
src/spells/fireball.py) -/

/-- `SpellState` from src/spells/base.py. -/
inductive SpellState
  | CASTING
  | ACTIVE
  | FADING
  | DONE
deriving DecidableEq, Repr

/-- The spell classes the claims exercise (the source's class objects,
per the closed-variant design).  Only `Fireball` is needed here. -/
inductive SpellKind
  | fireball
deriving DecidableEq, Repr

/-- Class attribute `name`. -/
def SpellKind.name : SpellKind → String
  | SpellKind.fireball => "fireball"

/-- Class attribute `mana_cost`. -/
def SpellKind.mana_cost : SpellKind → ℤ
  | SpellKind.fireball => 20

/-- Class attribute `cooldown` (seconds). -/
def SpellKind.cooldown : SpellKind → ℚ
  | SpellKind.fireball => 3 / 2

/-- A spell instance, restricted to the lifecycle fields of
src/spells/base.py plus Fireball's position.  Fireball's trajectory
velocity (whose general case divides by a Euclidean distance), its orb
size, and its emitter objects are elided: no claim reads them, and they
only feed the particle/rendering side effects. -/
structure SpellInstance where
  kind : SpellKind
  state : SpellState := SpellState.CASTING
  elapsed : ℚ := 0
  origin_x : ℚ := 1 / 2
  origin_y : ℚ := 1 / 2
  x : ℚ := 1 / 2
  y : ℚ := 1 / 2
deriving DecidableEq, Repr

/-- `Spell.__init__` (src/spells/base.py) for a given class. -/
def SpellInstance.new (k : SpellKind) : SpellInstance :=
  { kind := k }

/-- `Fireball.cast` (src/spells/fireball.py) as it acts on the spell's
own fields: record the origin, position the orb at the hand, and enter
ACTIVE.  The particle-trail emission and the velocity aimed at the
screen center are side data elided from the model (see
`SpellInstance`). -/
def SpellInstance.cast (s : SpellInstance) (x y : ℚ) : SpellInstance :=
  { s with origin_x := x, origin_y := y, x := x, y := y, state := SpellState.ACTIVE }

/-- `Spell.is_alive` as implemented by Fireball
(src/spells/fireball.py): alive while not DONE. -/
def SpellInstance.is_alive (s : SpellInstance) : Bool :=
  decide (s.state ≠ SpellState.DONE)

/-- The mutable fields of `SpellRegistry` (src/spells/registry.py); the
particle engine, screen effects and audio collaborators are sinks for
side effects no claim reads and are elided. -/
structure SpellRegistry where
  mana : ManaSystem := {}
  cooldowns : SpellCooldown := {}
  active_spells : List SpellInstance := []
  gesture_map : List (String × SpellKind) := []
deriving DecidableEq, Repr

/-- `SpellRegistry._event_to_trigger` from src/spells/registry.py. -/
def event_to_trigger (event : GestureEvent) (gesture_name : String) : String :=
  let base :=
    match event with
    | GestureEvent.SWIPE_LEFT => "swipe_left"
    | GestureEvent.SWIPE_RIGHT => "swipe_right"
    | GestureEvent.SWIPE_UP => "swipe_up"
    | GestureEvent.SWIPE_DOWN => "swipe_down"
    | GestureEvent.TAP => "tap"
    | GestureEvent.HOLD_START => "hold_start"
    | GestureEvent.HOLD_END => "hold_end"
    | GestureEvent.NONE => ""
  if base = "" then ""
  else if gesture_name ≠ "" then base ++ "_" ++ gesture_name
  else base

/-- `SpellRegistry.handle_event` from src/spells/registry.py: trigger-key
lookup, then the cooldown gate, then the mana gate; on success spend
mana, arm the cooldown, instantiate and cast the spell, and append it to
the active list (the audio playback is a fire-and-forget side effect). -/
def handle_event (reg : SpellRegistry) (event : GestureEvent) (hand_x hand_y : ℚ)
    (gesture_name : String) (now : ℚ) : SpellRegistry × Option SpellInstance :=
  let trigger := event_to_trigger event gesture_name
  if trigger = "" then (reg, none)
  else
    match reg.gesture_map.lookup trigger with
    | none => (reg, none)
    | some spell_class =>
      if ¬ reg.cooldowns.is_ready spell_class.name now then (reg, none)
      else if ¬ reg.mana.can_cast spell_class.mana_cost then (reg, none)
      else
        let mana1 := (reg.mana.spend spell_class.mana_cost).1
        let cooldowns1 := reg.cooldowns.trigger spell_class.name spell_class.cooldown now
        let spell := (SpellInstance.new spell_class).cast hand_x hand_y
        ({ reg with
            mana := mana1, cooldowns := cooldowns1,
            active_spells := reg.active_spells ++ [spell] },
         some spell)

/-! ## HUD widgets and mode menu (src/hud/widgets.py, src/hud/menu.py) -/

/-- `HUDMode` from src/hud/widgets.py. -/
inductive HUDMode
  | COMBAT
  | SCAN
  | NAVIGATION
deriving DecidableEq, Repr

/-- `MODE_ORDER` from src/hud/menu.py. -/
def MODE_ORDER : List HUDMode :=
  [HUDMode.COMBAT, HUDMode.SCAN, HUDMode.NAVIGATION]

/-- `MODE_ORDER.index` for the three modes. -/
def mode_index : HUDMode → ℕ
  | HUDMode.COMBAT => 0
  | HUDMode.SCAN => 1
  | HUDMode.NAVIGATION => 2

/-- `HUDState` from src/hud/widgets.py, restricted to the fields the
mode menu and the registry iteration read: the shared mode, and the
tracker event inside `gesture_state` (`none` models
`gesture_state is None`). -/
structure HUDStateM where
  mode : HUDMode := HUDMode.COMBAT
  gesture_event : Option GestureEvent := none
deriving DecidableEq, Repr

/-- The mutable fields of `ModeMenu` (src/hud/menu.py); `enabled` is the
`HUDWidget` base flag. -/
structure ModeMenuState where
  enabled : Bool := true
  current_mode : HUDMode := HUDMode.COMBAT
  transition_start : ℚ := 0
  transitioning : Bool := false
  transition_from : HUDMode := HUDMode.COMBAT
deriving DecidableEq, Repr

/-- `ModeMenu._switch_mode` from src/hud/menu.py: cycle through
`MODE_ORDER` with Python's nonnegative `%`, record the transition flash
origin. -/
def switch_mode (m : ModeMenuState) (direction : ℤ) (now : ℚ) : ModeMenuState :=
  let current_idx : ℤ := mode_index m.current_mode
  let new_idx := (current_idx + direction).emod (MODE_ORDER.length : ℤ)
  { m with
      transition_from := m.current_mode,
      current_mode := (MODE_ORDER.get? new_idx.toNat).getD HUDMode.COMBAT,
      transitioning := true, transition_start := now }

/-- `ModeMenu.update` from src/hud/menu.py: early-out when no gesture
state, cycle on swipes, write the menu's mode back into the shared
state, then expire the transition flash after one second. -/
def menu_update (m : ModeMenuState) (st : HUDStateM) (now : ℚ) :
    ModeMenuState × HUDStateM :=
  match st.gesture_event with
  | none => (m, st)
  | some ev =>
    let m1 :=
      if ev = GestureEvent.SWIPE_LEFT then switch_mode m (-1) now
      else if ev = GestureEvent.SWIPE_RIGHT then switch_mode m 1 now
      else m
    let st1 := { st with mode := m1.current_mode }
    let m2 :=
      if m1.transitioning ∧ now - m1.transition_start > 1 then
        { m1 with transitioning := false }
      else m1
    (m2, st1)

/-- The fields of the test suite's `DummyWidget` (tests/test_widgets.py):
a plain `HUDWidget` whose `update`/`render` record that they ran, used
to observe which widgets the registry touches. -/
structure DummyWidget where
  active_modes : List HUDMode := [HUDMode.COMBAT, HUDMode.SCAN]
  enabled : Bool := true
  updated : Bool := false
  rendered : Bool := false
deriving DecidableEq, Repr

/-- A registry member: the mode menu or a dummy widget. -/
inductive Widget
  | menu (m : ModeMenuState)
  | dummy (d : DummyWidget)
deriving DecidableEq, Repr

/-- `HUDWidget.is_active` from src/hud/widgets.py: enabled and the mode
is among the widget's `active_modes` (the menu lists all three modes). -/
def Widget.is_active (w : Widget) (mode : HUDMode) : Bool :=
  match w with
  | Widget.menu m => m.enabled && decide (mode ∈ MODE_ORDER)
  | Widget.dummy d => d.enabled && decide (mode ∈ d.active_modes)

/-- One widget's `update(state)` call. -/
def Widget.update (w : Widget) (st : HUDStateM) (now : ℚ) : Widget × HUDStateM :=
  match w with
  | Widget.menu m =>
    let (m1, st1) := menu_update m st now
    (Widget.menu m1, st1)
  | Widget.dummy d => (Widget.dummy { d with updated := true }, st)

/-- One widget's `render(overlay, state)` call (the overlay itself is
not modeled; `ModeMenu.render` mutates no widget state). -/
def Widget.render (w : Widget) : Widget :=
  match w with
  | Widget.menu m => Widget.menu m
  | Widget.dummy d => Widget.dummy { d with rendered := true }

/-- Run the loop body over the widgets whose paired flag marks them
active, threading both the widget list and the shared state. -/
def runUpdates (now : ℚ) : List (Widget × Bool) → HUDStateM → List Widget × HUDStateM
  | [], st => ([], st)
  | (w, b) :: rest, st =>
    if b then
      let (w1, st1) := Widget.update w st now
      let (ws2, st2) := runUpdates now rest st1
      (w1 :: ws2, st2)
    else
      let (ws2, st2) := runUpdates now rest st
      (w :: ws2, st2)

/-- `WidgetRegistry.update_all` from src/hud/widgets.py: the active set
`self.get_active(state.mode)` is materialized before the loop runs,
using the mode the state carries on entry; updates then run in
registration order on that fixed set, sharing the (mutable) state. -/
def update_all (ws : List Widget) (st : HUDStateM) (now : ℚ) :
    List Widget × HUDStateM :=
  runUpdates now (ws.zip (ws.map (fun w => w.is_active st.mode))) st

/-- `WidgetRegistry.render_all` from src/hud/widgets.py: same active-set
computation at call time, rendering in registration order. -/
def render_all (ws : List Widget) (st : HUDStateM) : List Widget :=
  (ws.zip (ws.map (fun w => w.is_active st.mode))).map
    (fun wb => if wb.2 then wb.1.render else wb.1)

/-! ## Theorems -/

/-- Claim C2: `emit` admits exactly `min(B, max_particles - C)` particles,
as a prefix of the batch in input order, silently dropping the rest, so
the pool count never exceeds `max_particles`. -/
theorem emit_admits_min (e : ParticleEngine) (batch : List Particle)
    (h : e.count ≤ e.max_particles) :
    (e.emit batch).particles
        = e.particles ++ batch.take (e.max_particles - e.count) ∧
    (e.emit batch).count = e.count + min batch.length (e.max_particles - e.count) ∧
    (e.emit batch).count ≤ e.max_particles := by
  have hcount : e.count = e.particles.length := rfl
  rw [hcount] at h ⊢
  by_cases hfull : (e.max_particles : ℤ) - (e.particles.length : ℤ) ≤ 0
  · have hge : e.max_particles ≤ e.particles.length := by
      have := hfull
      omega
    have heq : e.max_particles - e.particles.length = 0 :=
      Nat.sub_eq_zero_of_le hge
    have hemit : e.emit batch = e := by
      unfold ParticleEngine.emit
      rw [if_pos hfull]
    rw [hemit, hcount, heq]
    refine ⟨by simp, by simp, h⟩
  · have htn : ((e.max_particles : ℤ) - (e.particles.length : ℤ)).toNat
        = e.max_particles - e.particles.length := by omega
    have hemit : (e.emit batch).particles
        = e.particles ++ batch.take (e.max_particles - e.particles.length) := by
      unfold ParticleEngine.emit
      rw [if_neg hfull]
      simp [htn]
    refine ⟨hemit, ?_, ?_⟩
    · show ((e.emit batch).particles).length = _
      rw [hemit]
      simp [List.length_take]
      omega
    · show ((e.emit batch).particles).length ≤ _
      rw [hemit]
      simp [List.length_take]
      omega

/-- Witness for `emit_admits_min`: a pool with `max_particles = 5`
receiving a 10-element batch ends with `count = 5` (end-to-end
scenario C). -/
theorem emit_admits_min_witness :
    ParticleEngine.count { max_particles := 5, particles := [] } ≤ 5 ∧
    (ParticleEngine.emit { max_particles := 5, particles := [] }
        (List.replicate 10 ({} : Particle))).count = 5 :=
  ⟨by decide, by
    have h := (emit_admits_min { max_particles := 5, particles := [] }
      (List.replicate 10 ({} : Particle)) (by decide)).2.1
    simpa using h⟩

/-- Claim C6 counterexample: the state with `max_mana = 100`,
`current_mana = 0` and `regen_rate = -1` satisfies the invariant, yet
`regenerate 1` drives `current_mana` to `-1`, so invariant preservation
does not hold for every state with nonnegative cost and dt. -/
theorem mana_invariant_counterexample :
    (0 ≤ (ManaSystem.mk 100 0 (-1)).current_mana ∧
      (ManaSystem.mk 100 0 (-1)).current_mana
        ≤ ((ManaSystem.mk 100 0 (-1)).max_mana : ℚ)) ∧
    ((ManaSystem.mk 100 0 (-1)).regenerate 1).current_mana = -1 ∧
    ¬ 0 ≤ ((ManaSystem.mk 100 0 (-1)).regenerate 1).current_mana := by
  have hval : ((ManaSystem.mk 100 0 (-1)).regenerate 1).current_mana = -1 := by
    show min ((100 : ℤ) : ℚ) (0 + (-1) * 1) = -1
    norm_num
  exact ⟨⟨by norm_num, by norm_num⟩, hval, by rw [hval]; norm_num⟩

/-- Claim C6 (amended): failed `spend` is atomic, `regenerate` never
exceeds `max_mana`, and — additionally assuming the regeneration rate is
nonnegative — spend/regenerate with nonnegative cost and dt preserve
`0 ≤ current_mana ≤ max_mana`. -/
theorem mana_ops_preserve_invariant (m : ManaSystem) (cost : ℤ) (dt : ℚ) :
    (m.current_mana < (cost : ℚ) → m.spend cost = (m, false)) ∧
    ((m.regenerate dt).current_mana ≤ (m.max_mana : ℚ)) ∧
    (0 ≤ m.current_mana → m.current_mana ≤ (m.max_mana : ℚ) →
      (0 ≤ cost →
        0 ≤ (m.spend cost).1.current_mana ∧
          (m.spend cost).1.current_mana ≤ (m.max_mana : ℚ)) ∧
      (0 ≤ dt → 0 ≤ m.regen_rate →
        0 ≤ (m.regenerate dt).current_mana ∧
          (m.regenerate dt).current_mana ≤ (m.max_mana : ℚ))) := by
  refine ⟨?_, ?_, ?_⟩
  · intro hshort
    unfold ManaSystem.spend
    rw [if_pos hshort]
  · exact min_le_left _ _
  · intro h0 hmax
    constructor
    · intro hcost
      have hcostq : (0 : ℚ) ≤ (cost : ℚ) := by exact_mod_cast hcost
      unfold ManaSystem.spend
      split_ifs with hs
      · exact ⟨h0, hmax⟩
      · push_neg at hs
        constructor
        · show 0 ≤ m.current_mana - (cost : ℚ)
          linarith
        · show m.current_mana - (cost : ℚ) ≤ (m.max_mana : ℚ)
          linarith
    · intro hdt hrate
      refine ⟨?_, min_le_left _ _⟩
      unfold ManaSystem.regenerate
      have hmax0 : (0 : ℚ) ≤ (m.max_mana : ℚ) := le_trans h0 hmax
      have : (0 : ℚ) ≤ m.current_mana + m.regen_rate * dt := by
        have := mul_nonneg hrate hdt
        linarith
      exact le_min hmax0 this

/-- Witness for `mana_ops_preserve_invariant`: the default pool
(100/100, rate 8) with cost 20 and dt 1. -/
theorem mana_ops_preserve_invariant_witness :
    (0 : ℚ) ≤ ({} : ManaSystem).current_mana ∧
    ({} : ManaSystem).current_mana ≤ (({} : ManaSystem).max_mana : ℚ) ∧
    (0 ≤ (({} : ManaSystem).spend 20).1.current_mana ∧
      (({} : ManaSystem).spend 20).1.current_mana ≤ (({} : ManaSystem).max_mana : ℚ)) ∧
    (0 ≤ (({} : ManaSystem).regenerate 1).current_mana ∧
      (({} : ManaSystem).regenerate 1).current_mana ≤ (({} : ManaSystem).max_mana : ℚ)) :=
  ⟨by norm_num, by norm_num,
   ((mana_ops_preserve_invariant {} 20 1).2.2 (by norm_num) (by norm_num)).1
     (by norm_num),
   ((mana_ops_preserve_invariant {} 20 1).2.2 (by norm_num) (by norm_num)).2
     (by norm_num) (by norm_num)⟩

/-- Claim C8: after `trigger(name, duration)` with positive duration the
spell is not ready at the trigger instant; it is ready exactly when the
clock has reached the stored ready-timestamp `now + duration`; names
never triggered are always ready (for the nonnegative clock values
`time.time()` produces). -/
theorem cooldown_trigger_ready :
    (∀ (c : SpellCooldown) (name : String) (dur now : ℚ), 0 < dur →
        (c.trigger name dur now).is_ready name now = false) ∧
    (∀ (c : SpellCooldown) (name : String) (dur now t : ℚ),
        ((c.trigger name dur now).is_ready name t = true ↔ now + dur ≤ t)) ∧
    (∀ (c : SpellCooldown) (name : String) (now : ℚ),
        c.cooldowns.lookup name = none → 0 ≤ now → c.is_ready name now = true) := by
  refine ⟨?_, ?_, ?_⟩
  · intro c name dur now hdur
    simp [SpellCooldown.is_ready, SpellCooldown.trigger, List.lookup]
    linarith
  · intro c name dur now t
    simp [SpellCooldown.is_ready, SpellCooldown.trigger, List.lookup]
  · intro c name now hl hnow
    simp [SpellCooldown.is_ready, hl, hnow]

/-- Witness for `cooldown_trigger_ready`: triggering "fireball" for 1s
at time 0 makes it not ready at time 0, ready at time 1; the never
triggered name "x" is ready. -/
theorem cooldown_trigger_ready_witness :
    (0 : ℚ) < 1 ∧
    ((({} : SpellCooldown).trigger "fireball" 1 0).is_ready "fireball" 0 = false) ∧
    ((({} : SpellCooldown).trigger "fireball" 1 0).is_ready "fireball" 1 = true) ∧
    (({} : SpellCooldown).is_ready "x" 0 = true) :=
  ⟨by norm_num, cooldown_trigger_ready.1 {} "fireball" 1 0 (by norm_num),
   (cooldown_trigger_ready.2.1 {} "fireball" 1 0 1).mpr (by norm_num),
   cooldown_trigger_ready.2.2 {} "x" 0 rfl (le_refl 0)⟩

lemma particle_update_some (p : Particle) (dt : ℚ) (h : p.lifetime ≠ 0) :
    ∃ q, p.update dt = some q := by
  unfold Particle.update
  simp [h]

lemma particle_update_none (p : Particle) (dt : ℚ) (h : p.lifetime = 0) :
    p.update dt = none := by
  unfold Particle.update
  simp [h]

lemma updateAll_isSome (dt : ℚ) (l : List Particle)
    (h : ∀ p ∈ l, p.lifetime ≠ 0) : ∃ l2, updateAll dt l = some l2 := by
  induction l with
  | nil => exact ⟨[], rfl⟩
  | cons p ps ih =>
    obtain ⟨q, hq⟩ := particle_update_some p dt (h p (List.mem_cons_self p ps))
    obtain ⟨l2, hl2⟩ := ih (fun r hr => h r (List.mem_cons_of_mem p hr))
    exact ⟨q :: l2, by unfold updateAll; rw [hq, hl2]⟩

lemma updateAll_none_of_mem (dt : ℚ) (l : List Particle) (p : Particle)
    (hp : p ∈ l) (h : p.update dt = none) : updateAll dt l = none := by
  induction l with
  | nil => cases hp
  | cons q qs ih =>
    rcases List.mem_cons.mp hp with heq | hm
    · subst heq
      unfold updateAll
      rw [h]
    · unfold updateAll
      rw [ih hm]
      try { cases q.update dt <;> rfl }

/-- Claim C9: when every pooled particle has nonzero lifetime,
`ParticleEngine.update` is total (the division's error branch is
unreachable); a particle emitted with `lifetime = 0` makes the next
update hit the unguarded division (modeled as `none`) before the
dead-particle culling pass can remove it. -/
theorem particle_zero_lifetime_division (e : ParticleEngine) (dt : ℚ) :
    ((∀ p ∈ e.particles, p.lifetime ≠ 0) → ∃ e2, e.update dt = some e2) ∧
    (∀ p : Particle, p.lifetime = 0 → e.count < e.max_particles →
        (e.emit [p]).update dt = none) := by
  constructor
  · intro h
    obtain ⟨l2, hl2⟩ := updateAll_isSome dt e.particles h
    exact ⟨_, by unfold ParticleEngine.update; rw [hl2]⟩
  · intro p hl hspace
    have hsp : ¬ ((e.max_particles : ℤ) - (e.particles.length : ℤ) ≤ 0) := by
      have : e.particles.length < e.max_particles := hspace
      omega
    have htake : List.take ((e.max_particles : ℤ) - (e.particles.length : ℤ)).toNat [p]
        = [p] := by
      apply List.take_of_length_le
      simp
      omega
    have hmem : p ∈ (e.emit [p]).particles := by
      unfold ParticleEngine.emit
      rw [if_neg hsp]
      show p ∈ e.particles ++ List.take _ [p]
      rw [htake]
      simp
    have hnone := updateAll_none_of_mem dt (e.emit [p]).particles p hmem
      (particle_update_none p dt hl)
    unfold ParticleEngine.update
    rw [hnone]

/-- Witness for `particle_zero_lifetime_division`: the empty default
engine updates totally, and after emitting a `lifetime = 0` particle the
next update raises. -/
theorem particle_zero_lifetime_division_witness :
    (∃ e2, ParticleEngine.update ({} : ParticleEngine) 1 = some e2) ∧
    (({} : ParticleEngine).emit [{ lifetime := 0 }]).update 1 = none :=
  ⟨(particle_zero_lifetime_division {} 1).1 (by intro p hp; cases hp),
   (particle_zero_lifetime_division {} 1).2 { lifetime := 0 } rfl (by decide)⟩

/-- Claim C7: `classify` is a total pure function of the hand snapshot
(in this embedding, a function into `GestureResult`), deciding by first
match in the order FIST, OPEN_PALM, PINCH (thumb-to-index distance
below 0.05), THUMBS_UP (only thumb and thumb above wrist by more than
0.08), POINT (only index, or exactly index+thumb), PEACE (exactly
index+middle), otherwise NONE with confidence 0.5. -/
theorem classify_decision_order (h : HandData) :
    (h.num_fingers_extended = 0 →
      classify h = { gesture := GestureType.FIST, confidence := 9/10, hand_data := h }) ∧
    (h.num_fingers_extended = 5 →
      classify h = { gesture := GestureType.OPEN_PALM, confidence := 9/10, hand_data := h }) ∧
    (h.num_fingers_extended ≠ 0 → h.num_fingers_extended ≠ 5 →
      is_pinch h = true →
      classify h = { gesture := GestureType.PINCH, confidence := 85/100, hand_data := h }) ∧
    (h.num_fingers_extended ≠ 0 → h.num_fingers_extended ≠ 5 →
      is_pinch h = false →
      h.finger_extended Finger.THUMB = true → h.num_fingers_extended = 1 →
      is_thumb_up_orientation h = true →
      classify h = { gesture := GestureType.THUMBS_UP, confidence := 85/100, hand_data := h }) ∧
    (h.num_fingers_extended ≠ 0 → h.num_fingers_extended ≠ 5 →
      is_pinch h = false →
      ¬ (h.finger_extended Finger.THUMB = true ∧ h.num_fingers_extended = 1 ∧
          is_thumb_up_orientation h = true) →
      h.finger_extended Finger.INDEX = true → h.num_fingers_extended = 1 →
      classify h = { gesture := GestureType.POINT, confidence := 9/10, hand_data := h }) ∧
    (h.num_fingers_extended ≠ 0 → h.num_fingers_extended ≠ 5 →
      is_pinch h = false →
      ¬ (h.finger_extended Finger.THUMB = true ∧ h.num_fingers_extended = 1 ∧
          is_thumb_up_orientation h = true) →
      ¬ (h.finger_extended Finger.INDEX = true ∧ h.num_fingers_extended = 1) →
      h.finger_extended Finger.INDEX = true → h.finger_extended Finger.THUMB = true →
      h.num_fingers_extended = 2 →
      classify h = { gesture := GestureType.POINT, confidence := 8/10, hand_data := h }) ∧
    (h.num_fingers_extended ≠ 0 → h.num_fingers_extended ≠ 5 →
      is_pinch h = false →
      ¬ (h.finger_extended Finger.THUMB = true ∧ h.num_fingers_extended = 1 ∧
          is_thumb_up_orientation h = true) →
      ¬ (h.finger_extended Finger.INDEX = true ∧ h.num_fingers_extended = 1) →
      ¬ (h.finger_extended Finger.INDEX = true ∧ h.finger_extended Finger.THUMB = true ∧
          h.num_fingers_extended = 2) →
      h.finger_extended Finger.INDEX = true → h.finger_extended Finger.MIDDLE = true →
      h.num_fingers_extended = 2 →
      classify h = { gesture := GestureType.PEACE, confidence := 85/100, hand_data := h }) ∧
    (h.num_fingers_extended ≠ 0 → h.num_fingers_extended ≠ 5 →
      is_pinch h = false →
      ¬ (h.finger_extended Finger.THUMB = true ∧ h.num_fingers_extended = 1 ∧
          is_thumb_up_orientation h = true) →
      ¬ (h.finger_extended Finger.INDEX = true ∧ h.num_fingers_extended = 1) →
      ¬ (h.finger_extended Finger.INDEX = true ∧ h.finger_extended Finger.THUMB = true ∧
          h.num_fingers_extended = 2) →
      ¬ (h.finger_extended Finger.INDEX = true ∧ h.finger_extended Finger.MIDDLE = true ∧
          h.num_fingers_extended = 2) →
      classify h = { gesture := GestureType.NONE, confidence := 5/10, hand_data := h }) := by
  refine ⟨?_, ?_, ?_, ?_, ?_, ?_, ?_, ?_⟩ <;>
    · intros
      simp only [classify]
      split_ifs <;> first | rfl | (exfalso; simp_all)

/-- A hand with no fingers extended (all landmarks at the origin). -/
def fistHand : HandData :=
  { finger_extended := fun _ => false,
    wrist := { x := 0, y := 0 }, thumb_tip := { x := 0, y := 0 },
    index_tip := { x := 0, y := 0 }, center := { x := 0, y := 0 } }

/-- Witness for `classify_decision_order`: the all-flexed hand is
classified FIST with confidence 0.9. -/
theorem classify_decision_order_witness :
    fistHand.num_fingers_extended = 0 ∧
    classify fistHand
      = { gesture := GestureType.FIST, confidence := 9/10, hand_data := fistHand } :=
  ⟨by decide, (classify_decision_order fistHand).1 (by decide)⟩

lemma check_tap_spec (cfg : GesturesConfig) (start now : ℚ)
    (h : check_tap cfg start now = true) :
    start ≠ 0 ∧ 0 < now - start ∧ now - start < cfg.tap_max_duration := by
  unfold check_tap at h
  by_cases h0 : start = 0
  · rw [if_pos h0] at h
    cases h
  · rw [if_neg h0] at h
    simp only [decide_eq_true_eq] at h
    exact ⟨h0, h.1, h.2⟩

lemma detect_swipe_cases (cfg : GesturesConfig) (hist : List (Point × ℚ)) :
    detect_swipe cfg hist = GestureEvent.NONE ∨
    detect_swipe cfg hist = GestureEvent.SWIPE_LEFT ∨
    detect_swipe cfg hist = GestureEvent.SWIPE_RIGHT ∨
    detect_swipe cfg hist = GestureEvent.SWIPE_UP ∨
    detect_swipe cfg hist = GestureEvent.SWIPE_DOWN := by
  unfold detect_swipe
  split
  · exact Or.inl rfl
  · split
    · dsimp only
      split_ifs <;> simp
    · exact Or.inl rfl

/-- Claim C10: `update` returns TAP only when the stored
`gesture_start_time` is nonzero (its value after construction or reset)
and the elapsed duration since it is strictly between 0 and
`tap_max_duration`. -/
theorem tap_requires_recorded_start (cfg : GesturesConfig) (s : TrackerState)
    (gr : Option GestureResult) (now : ℚ)
    (h : (update cfg s gr now).2.event = GestureEvent.TAP) :
    s.gesture_start_time ≠ 0 ∧ 0 < now - s.gesture_start_time ∧
      now - s.gesture_start_time < cfg.tap_max_duration := by
  rcases gr with _ | r
  · simp only [update] at h
    split_ifs at h with h1 h2 h3
    exact check_tap_spec cfg _ now h3
  · simp only [update] at h
    split_ifs at h <;>
      first
        | exact check_tap_spec cfg _ now (by assumption)
        | (simp at h; done)
        | (simp at h
           rcases detect_swipe_cases cfg
             (pushHistory s.position_history (r.hand_data.center, now))
             with hs | hs | hs | hs | hs <;> simp [hs] at h)

/-- Witness for `tap_requires_recorded_start`: losing the hand 0.2s
after a FIST was confirmed at time 1 emits TAP, and the recorded start
is nonzero with elapsed time inside the tap window. -/
theorem tap_requires_recorded_start_witness :
    (update {} { current_gesture := GestureType.FIST, gesture_start_time := 1 }
        none (12/10)).2.event = GestureEvent.TAP ∧
    ((1 : ℚ) ≠ 0 ∧ 0 < (12/10 : ℚ) - 1 ∧
      (12/10 : ℚ) - 1 < GesturesConfig.tap_max_duration {}) := by
  have hev : (update {} { current_gesture := GestureType.FIST, gesture_start_time := 1 }
      none (12/10)).2.event = GestureEvent.TAP := by
    unfold update
    norm_num [check_tap]
    simp
  refine ⟨hev, ?_⟩
  have h2 := tap_requires_recorded_start {}
    { current_gesture := GestureType.FIST, gesture_start_time := 1 } none (12/10) hev
  simpa using h2

/-- Claim C4: with Fireball (cost 20, cooldown 1.5s) registered under
"swipe_up" and mana 100, `handle_event(SWIPE_UP, 0.5, 0.5, "")` returns a
live Fireball instance, appends it to the active list, and leaves mana at
80; an immediate second identical call returns none (cooldown not
elapsed) and changes neither mana nor the active list (the whole registry
state is unchanged). -/
theorem fireball_scenario (rate now : ℚ) (hnow : 0 ≤ now) :
    (handle_event
        { mana := { max_mana := 100, current_mana := 100, regen_rate := rate },
          cooldowns := {}, active_spells := [],
          gesture_map := [("swipe_up", SpellKind.fireball)] }
        GestureEvent.SWIPE_UP (1/2) (1/2) "" now).2
      = some (SpellInstance.cast (SpellInstance.new SpellKind.fireball) (1/2) (1/2)) ∧
    (SpellInstance.cast (SpellInstance.new SpellKind.fireball) (1/2) (1/2)).is_alive
      = true ∧
    (handle_event
        { mana := { max_mana := 100, current_mana := 100, regen_rate := rate },
          cooldowns := {}, active_spells := [],
          gesture_map := [("swipe_up", SpellKind.fireball)] }
        GestureEvent.SWIPE_UP (1/2) (1/2) "" now).1.active_spells
      = [SpellInstance.cast (SpellInstance.new SpellKind.fireball) (1/2) (1/2)] ∧
    (handle_event
        { mana := { max_mana := 100, current_mana := 100, regen_rate := rate },
          cooldowns := {}, active_spells := [],
          gesture_map := [("swipe_up", SpellKind.fireball)] }
        GestureEvent.SWIPE_UP (1/2) (1/2) "" now).1.mana.current_mana = 80 ∧
    handle_event
        (handle_event
          { mana := { max_mana := 100, current_mana := 100, regen_rate := rate },
            cooldowns := {}, active_spells := [],
            gesture_map := [("swipe_up", SpellKind.fireball)] }
          GestureEvent.SWIPE_UP (1/2) (1/2) "" now).1
        GestureEvent.SWIPE_UP (1/2) (1/2) "" now
      = ((handle_event
          { mana := { max_mana := 100, current_mana := 100, regen_rate := rate },
            cooldowns := {}, active_spells := [],
            gesture_map := [("swipe_up", SpellKind.fireball)] }
          GestureEvent.SWIPE_UP (1/2) (1/2) "" now).1, none) := by
  have hready : SpellCooldown.is_ready {} "fireball" now = true := by
    simp [SpellCooldown.is_ready, hnow]
  have hnotready : ∀ c : SpellCooldown,
      (c.trigger "fireball" (3/2) now).is_ready "fireball" now = false := by
    intro c
    simp [SpellCooldown.is_ready, SpellCooldown.trigger, List.lookup]
  have hfirst : handle_event
      { mana := { max_mana := 100, current_mana := 100, regen_rate := rate },
        cooldowns := {}, active_spells := [],
        gesture_map := [("swipe_up", SpellKind.fireball)] }
      GestureEvent.SWIPE_UP (1/2) (1/2) "" now
      = ({ mana := { max_mana := 100, current_mana := 80, regen_rate := rate },
           cooldowns := SpellCooldown.trigger {} "fireball" (3/2) now,
           active_spells :=
             [SpellInstance.cast (SpellInstance.new SpellKind.fireball) (1/2) (1/2)],
           gesture_map := [("swipe_up", SpellKind.fireball)] },
         some (SpellInstance.cast (SpellInstance.new SpellKind.fireball) (1/2) (1/2))) := by
    have hc : ¬ ((100 : ℚ) < (20 : ℚ)) := by norm_num
    unfold handle_event
    simp [event_to_trigger, List.lookup, hready, SpellKind.name, SpellKind.mana_cost,
      SpellKind.cooldown, ManaSystem.can_cast, ManaSystem.spend, hc]
    norm_num
  have hsecond : handle_event
      ({ mana := { max_mana := 100, current_mana := 80, regen_rate := rate },
         cooldowns := SpellCooldown.trigger {} "fireball" (3/2) now,
         active_spells :=
           [SpellInstance.cast (SpellInstance.new SpellKind.fireball) (1/2) (1/2)],
         gesture_map := [("swipe_up", SpellKind.fireball)] } : SpellRegistry)
      GestureEvent.SWIPE_UP (1/2) (1/2) "" now
      = ({ mana := { max_mana := 100, current_mana := 80, regen_rate := rate },
           cooldowns := SpellCooldown.trigger {} "fireball" (3/2) now,
           active_spells :=
             [SpellInstance.cast (SpellInstance.new SpellKind.fireball) (1/2) (1/2)],
           gesture_map := [("swipe_up", SpellKind.fireball)] }, none) := by
    unfold handle_event
    simp [event_to_trigger, List.lookup, hnotready, SpellKind.name]
  rw [hfirst]
  refine ⟨rfl, rfl, rfl, rfl, ?_⟩
  exact hsecond

/-- Witness for `fireball_scenario`: the scenario at clock time 0 with
the default regeneration rate. -/
theorem fireball_scenario_witness :
    (0 : ℚ) ≤ 0 ∧
    (handle_event
        { mana := { max_mana := 100, current_mana := 100, regen_rate := 8 },
          cooldowns := {}, active_spells := [],
          gesture_map := [("swipe_up", SpellKind.fireball)] }
        GestureEvent.SWIPE_UP (1/2) (1/2) "" 0).2
      = some (SpellInstance.cast (SpellInstance.new SpellKind.fireball) (1/2) (1/2)) ∧
    (handle_event
        { mana := { max_mana := 100, current_mana := 100, regen_rate := 8 },
          cooldowns := {}, active_spells := [],
          gesture_map := [("swipe_up", SpellKind.fireball)] }
        GestureEvent.SWIPE_UP (1/2) (1/2) "" 0).1.mana.current_mana = 80 ∧
    (handle_event
        (handle_event
          { mana := { max_mana := 100, current_mana := 100, regen_rate := 8 },
            cooldowns := {}, active_spells := [],
            gesture_map := [("swipe_up", SpellKind.fireball)] }
          GestureEvent.SWIPE_UP (1/2) (1/2) "" 0).1
        GestureEvent.SWIPE_UP (1/2) (1/2) "" 0).2 = none :=
  ⟨le_refl 0, (fireball_scenario 8 0 (le_refl 0)).1,
   (fireball_scenario 8 0 (le_refl 0)).2.2.2.1,
   by rw [(fireball_scenario 8 0 (le_refl 0)).2.2.2.2]⟩

/-- The default gesture configuration (src/config.py defaults). -/
def cfgDefault : GesturesConfig := {}

/-- The origin point. -/
def originP : Point := { x := 0, y := 0 }

/-- A hand whose center sits at (0.5, 0); landmark fields the tracker
does not read are placed at the origin. -/
def swipeHand : HandData :=
  { finger_extended := fun _ => true, wrist := originP, thumb_tip := originP,
    index_tip := originP, center := { x := 1/2, y := 0 } }

/-- An OPEN_PALM classification carried by `swipeHand`. -/
def grOpenPalm : GestureResult :=
  { gesture := GestureType.OPEN_PALM, confidence := 9/10, hand_data := swipeHand }

/-- Tracker state in which a FIST was confirmed at t = 1 and is held,
OPEN_PALM has been pending for 4 frames, and the history holds four
origin samples between t = 10 and t = 10.2. -/
def sSwipeHold : TrackerState :=
  { current_gesture := GestureType.FIST, gesture_start_time := 1,
    is_holding := true, debounce_counter := 4,
    pending_gesture := GestureType.OPEN_PALM,
    position_history :=
      [(originP, 10), (originP, 10 + 1/10), (originP, 10 + 15/100),
       (originP, 10 + 2/10)] }

/-- Claim C1 counterexample: at t = 10.3 the history spans 0.3s with
Δx = 0.5 > threshold and Δx dominating, so a SWIPE_RIGHT is detected,
and the same call confirms the pending OPEN_PALM (counter reaches
debounce_frames = 5) while holding — yet the returned event is HOLD_END,
not the swipe. -/
theorem swipe_overridden_by_hold_end :
    detect_swipe cfgDefault
        (pushHistory sSwipeHold.position_history (grOpenPalm.hand_data.center, 103/10))
      = GestureEvent.SWIPE_RIGHT ∧
    (update cfgDefault sSwipeHold (some grOpenPalm) (103/10)).2.event
      = GestureEvent.HOLD_END ∧
    GestureEvent.HOLD_END ≠ GestureEvent.SWIPE_RIGHT := by
  have habs : |(1 : ℚ)/2| = 1/2 := by
    rw [abs_of_nonneg]
    norm_num
  have hsw : detect_swipe cfgDefault
      (pushHistory sSwipeHold.position_history (grOpenPalm.hand_data.center, 103/10))
      = GestureEvent.SWIPE_RIGHT := by
    unfold detect_swipe pushHistory
    norm_num [sSwipeHold, grOpenPalm, swipeHand, originP, cfgDefault, habs]
  refine ⟨hsw, ?_, by simp⟩
  unfold update
  norm_num [sSwipeHold, grOpenPalm, cfgDefault]
  simp

/-- Claim C1 (amended): when a swipe is detected this update, the
returned event is that swipe — it wins over a HOLD_START crossing and
over a non-confirming debounce step — except that a debounce-confirmed
gesture change in the same call overwrites it with HOLD_END (when
holding) or TAP (when the previous gesture tap-qualifies); exactly one
event is returned per call. -/
theorem swipe_priority_amended (cfg : GesturesConfig) (s : TrackerState)
    (r : GestureResult) (now : ℚ)
    (hsw : detect_swipe cfg (pushHistory s.position_history (r.hand_data.center, now))
      ≠ GestureEvent.NONE) :
    (update cfg s (some r) now).2.event =
      if r.gesture ≠ s.current_gesture ∧
          cfg.debounce_frames ≤
            (if r.gesture = s.pending_gesture then s.debounce_counter + 1 else 1) then
        (if s.is_holding then GestureEvent.HOLD_END
         else if check_tap cfg s.gesture_start_time now then GestureEvent.TAP
         else detect_swipe cfg (pushHistory s.position_history (r.hand_data.center, now)))
      else
        detect_swipe cfg (pushHistory s.position_history (r.hand_data.center, now)) := by
  simp only [update]
  split_ifs <;> simp_all

/-- Tracker state with OPEN_PALM stably confirmed at t = 10 and the same
four history samples, so that the 10.3 update detects the swipe with no
simultaneous debounce confirmation. -/
def sSwipePlain : TrackerState :=
  { current_gesture := GestureType.OPEN_PALM, gesture_start_time := 10,
    position_history :=
      [(originP, 10), (originP, 10 + 1/10), (originP, 10 + 15/100),
       (originP, 10 + 2/10)] }

/-- Witness for `swipe_priority_amended`: with no debounce confirmation
in the call, the swipe is returned as the event. -/
theorem swipe_priority_amended_witness :
    detect_swipe cfgDefault
        (pushHistory sSwipePlain.position_history (grOpenPalm.hand_data.center, 103/10))
      = GestureEvent.SWIPE_RIGHT ∧
    (update cfgDefault sSwipePlain (some grOpenPalm) (103/10)).2.event
      = GestureEvent.SWIPE_RIGHT := by
  have habs : |(1 : ℚ)/2| = 1/2 := by
    rw [abs_of_nonneg]
    norm_num
  have hsw : detect_swipe cfgDefault
      (pushHistory sSwipePlain.position_history (grOpenPalm.hand_data.center, 103/10))
      = GestureEvent.SWIPE_RIGHT := by
    unfold detect_swipe pushHistory
    norm_num [sSwipePlain, grOpenPalm, swipeHand, originP, cfgDefault, habs]
  refine ⟨hsw, ?_⟩
  have hch := swipe_priority_amended cfgDefault sSwipePlain grOpenPalm (103/10)
    (by rw [hsw]; simp)
  rw [hch, hsw]
  norm_num [sSwipePlain, grOpenPalm, cfgDefault]

lemma mem_mode_order (mode : HUDMode) : mode ∈ MODE_ORDER := by
  cases mode <;> simp [ MODE_ORDER]

/-- A fresh mode menu in COMBAT mode. -/
def menuCombat : ModeMenuState := {}

/-- A widget active only in SCAN mode. -/
def scanOnlyWidget : DummyWidget := { active_modes := [HUDMode.SCAN] }

/-- Registry with the menu followed by the SCAN-only widget. -/
def wsMenuScan : List Widget :=
  [Widget.menu menuCombat, Widget.dummy scanOnlyWidget]

/-- Frame state carrying a SWIPE_RIGHT in COMBAT mode. -/
def stSwipeRight : HUDStateM :=
  { mode := HUDMode.COMBAT, gesture_event := some GestureEvent.SWIPE_RIGHT }

/-- Claim C5 counterexample: the SWIPE_RIGHT frame switches the shared
mode to SCAN, but the widget active only in SCAN comes out of
`update_all` untouched (`updated = false`): the active set was computed
from the pre-swipe mode, so a widget activated by the new mode is not
updated this frame. -/
theorem mode_menu_activation_counterexample :
    (update_all wsMenuScan stSwipeRight 100).2.mode = HUDMode.SCAN ∧
    (update_all wsMenuScan stSwipeRight 100).1
      = [Widget.menu
           { enabled := true, current_mode := HUDMode.SCAN,
             transition_start := 100, transitioning := true,
             transition_from := HUDMode.COMBAT },
         Widget.dummy
           { active_modes := [HUDMode.SCAN], enabled := true,
             updated := false, rendered := false }] := by
  have hswitch : switch_mode menuCombat 1 100
      = { enabled := true, current_mode := HUDMode.SCAN, transition_start := 100,
          transitioning := true, transition_from := HUDMode.COMBAT } := by
    unfold switch_mode menuCombat mode_index MODE_ORDER
    norm_num
  have hmenu : menu_update menuCombat stSwipeRight 100
      = ({ enabled := true, current_mode := HUDMode.SCAN, transition_start := 100,
           transitioning := true, transition_from := HUDMode.COMBAT },
         { mode := HUDMode.SCAN, gesture_event := some GestureEvent.SWIPE_RIGHT }) := by
    unfold menu_update
    simp [stSwipeRight, hswitch]
  have hactive : wsMenuScan.zip (wsMenuScan.map (fun w => w.is_active stSwipeRight.mode))
      = [(Widget.menu menuCombat, true), (Widget.dummy scanOnlyWidget, false)] := by
    simp [wsMenuScan, stSwipeRight, Widget.is_active, menuCombat, scanOnlyWidget,
      MODE_ORDER]
  have hstep : update_all wsMenuScan stSwipeRight 100
      = ([Widget.menu
            { enabled := true, current_mode := HUDMode.SCAN,
              transition_start := 100, transitioning := true,
              transition_from := HUDMode.COMBAT },
          Widget.dummy
            { active_modes := [HUDMode.SCAN], enabled := true,
              updated := false, rendered := false }],
         { mode := HUDMode.SCAN, gesture_event := some GestureEvent.SWIPE_RIGHT }) := by
    unfold update_all
    rw [hactive]
    simp [runUpdates, Widget.update, hmenu, scanOnlyWidget]
  rw [hstep]
  exact ⟨rfl, rfl⟩

/-- Claim C5 (amended): a SWIPE_RIGHT detected by the mode menu writes
the new mode into the shared `HUDState.mode` the same frame, and the
frame's subsequent `render_all` pass (which recomputes the active set
with the new mode) does render a widget activated by the new mode; but
`update_all`'s own iteration set was materialized from the pre-swipe
mode, so such a widget is not updated until the next frame. -/
theorem mode_change_same_frame_amended (m : ModeMenuState) (d : DummyWidget)
    (st : HUDStateM) (now : ℚ)
    (hm : m.enabled = true) (hd : d.enabled = true)
    (hev : st.gesture_event = some GestureEvent.SWIPE_RIGHT)
    (hold : st.mode ∉ d.active_modes)
    (hnew : (switch_mode m 1 now).current_mode ∈ d.active_modes) :
    (update_all [Widget.menu m, Widget.dummy d] st now).2.mode
        = (switch_mode m 1 now).current_mode ∧
    (update_all [Widget.menu m, Widget.dummy d] st now).1
        = [Widget.menu (menu_update m st now).1, Widget.dummy d] ∧
    render_all (update_all [Widget.menu m, Widget.dummy d] st now).1
        (update_all [Widget.menu m, Widget.dummy d] st now).2
      = [Widget.menu (menu_update m st now).1,
         Widget.dummy { d with rendered := true }] := by
  have hmenu_active : ∀ mode, (Widget.menu m).is_active mode = true := by
    intro mode
    simp [Widget.is_active, hm, mem_mode_order]
  have hd_inactive : (Widget.dummy d).is_active st.mode = false := by
    simp [Widget.is_active, hold]
  have hupd : update_all [Widget.menu m, Widget.dummy d] st now
      = ([Widget.menu (menu_update m st now).1, Widget.dummy d],
         (menu_update m st now).2) := by
    unfold update_all
    simp [runUpdates, hmenu_active, hd_inactive, Widget.update]
  have hmode2 : (menu_update m st now).2.mode = (switch_mode m 1 now).current_mode := by
    simp [menu_update, hev]
  have hmenu_upd_active : ∀ mode,
      (Widget.menu (menu_update m st now).1).is_active mode = true := by
    intro mode
    have hen : (menu_update m st now).1.enabled = true := by
      simp [menu_update, hev, switch_mode]
      split_ifs <;> simp [hm]
    simp [Widget.is_active, hen, mem_mode_order]
  refine ⟨by rw [hupd, hmode2], by rw [hupd], ?_⟩
  rw [hupd]
  have hd_active : (Widget.dummy d).is_active (menu_update m st now).2.mode = true := by
    rw [hmode2]
    simp [Widget.is_active, hd, hnew]
  unfold render_all
  simp [hmenu_upd_active, hd_active, Widget.render]

/-- Witness for `mode_change_same_frame_amended`: the concrete
menu-plus-SCAN-widget registry; the widget is rendered with the new mode
this frame but not updated. -/
theorem mode_change_same_frame_amended_witness :
    (update_all wsMenuScan stSwipeRight 100).2.mode
        = (switch_mode menuCombat 1 100).current_mode ∧
    (update_all wsMenuScan stSwipeRight 100).1
        = [Widget.menu (menu_update menuCombat stSwipeRight 100).1,
           Widget.dummy scanOnlyWidget] ∧
    render_all (update_all wsMenuScan stSwipeRight 100).1
        (update_all wsMenuScan stSwipeRight 100).2
      = [Widget.menu (menu_update menuCombat stSwipeRight 100).1,
         Widget.dummy { scanOnlyWidget with rendered := true }] :=
  mode_change_same_frame_amended menuCombat scanOnlyWidget stSwipeRight 100
    rfl rfl rfl
    (by simp [stSwipeRight, scanOnlyWidget])
    (by decide)

lemma update_step_nonconfirm (cfg : GesturesConfig) (s : TrackerState)
    (r : GestureResult) (now : ℚ)
    (hne : r.gesture ≠ s.current_gesture)
    (hp : r.gesture = s.pending_gesture)
    (hcnt : ¬ cfg.debounce_frames ≤ s.debounce_counter + 1) :
    (update cfg s (some r) now).1.current_gesture = s.current_gesture ∧
    (update cfg s (some r) now).1.pending_gesture = s.pending_gesture ∧
    (update cfg s (some r) now).1.debounce_counter = s.debounce_counter + 1 := by
  simp only [update]
  split_ifs <;> simp_all

lemma update_step_confirm (cfg : GesturesConfig) (s : TrackerState)
    (r : GestureResult) (now : ℚ)
    (hne : r.gesture ≠ s.current_gesture)
    (hp : r.gesture = s.pending_gesture)
    (hcnt : cfg.debounce_frames ≤ s.debounce_counter + 1) :
    (update cfg s (some r) now).1.current_gesture = r.gesture := by
  simp only [update]
  split_ifs <;> simp_all

lemma update_step_first_confirm (cfg : GesturesConfig) (s : TrackerState)
    (r : GestureResult) (now : ℚ)
    (hne : r.gesture ≠ s.current_gesture)
    (hpne : r.gesture ≠ s.pending_gesture)
    (h1 : cfg.debounce_frames ≤ 1) :
    (update cfg s (some r) now).1.current_gesture = r.gesture := by
  simp only [update]
  split_ifs <;> simp_all

lemma update_step_first_non (cfg : GesturesConfig) (s : TrackerState)
    (r : GestureResult) (now : ℚ)
    (hne : r.gesture ≠ s.current_gesture)
    (hpne : r.gesture ≠ s.pending_gesture)
    (h1 : ¬ cfg.debounce_frames ≤ 1) :
    (update cfg s (some r) now).1.current_gesture = s.current_gesture ∧
    (update cfg s (some r) now).1.pending_gesture = r.gesture ∧
    (update cfg s (some r) now).1.debounce_counter = 1 := by
  simp only [update]
  split_ifs <;> simp_all

lemma iter_keeps_current (cfg : GesturesConfig) (r : GestureResult) :
    ∀ (ts : List ℚ) (s : TrackerState),
      r.gesture ≠ s.current_gesture →
      s.pending_gesture = r.gesture →
      s.debounce_counter + ts.length < cfg.debounce_frames →
      (iterUpdate cfg s (some r) ts).current_gesture = s.current_gesture ∧
      (iterUpdate cfg s (some r) ts).pending_gesture = r.gesture ∧
      (iterUpdate cfg s (some r) ts).debounce_counter
        = s.debounce_counter + ts.length
  | [], s, hne, hp, hcnt => by
      simp [iterUpdate, hp]
  | t :: ts, s, hne, hp, hcnt => by
      have hnc : ¬ cfg.debounce_frames ≤ s.debounce_counter + 1 := by
        simp only [List.length_cons] at hcnt
        omega
      have hstep := update_step_nonconfirm cfg s r t hne hp.symm hnc
      have hih := iter_keeps_current cfg r ts (update cfg s (some r) t).1
        (by rw [hstep.1]; exact hne)
        (by rw [hstep.2.1]; exact hp)
        (by rw [hstep.2.2]; simp only [List.length_cons] at hcnt; omega)
      refine ⟨?_, hih.2.1, ?_⟩
      · show (iterUpdate cfg (update cfg s (some r) t).1 (some r) ts).current_gesture = _
        rw [hih.1, hstep.1]
      · show (iterUpdate cfg (update cfg s (some r) t).1 (some r) ts).debounce_counter = _
        rw [hih.2.2, hstep.2.2]
        simp only [List.length_cons]
        omega

lemma iter_transition (cfg : GesturesConfig) (r : GestureResult) :
    ∀ (ts : List ℚ) (s : TrackerState),
      r.gesture ≠ s.current_gesture →
      s.pending_gesture = r.gesture →
      s.debounce_counter + ts.length = cfg.debounce_frames →
      1 ≤ ts.length →
      (iterUpdate cfg s (some r) ts).current_gesture = r.gesture
  | [], s, _, _, _, hlen => by cases hlen
  | t :: ts, s, hne, hp, hcnt, _ => by
      cases ts with
      | nil =>
        have hc : cfg.debounce_frames ≤ s.debounce_counter + 1 := by
          simp only [List.length_cons, List.length_nil] at hcnt
          omega
        have := update_step_confirm cfg s r t hne hp.symm hc
        show (iterUpdate cfg (update cfg s (some r) t).1 (some r) []).current_gesture = _
        simpa [iterUpdate] using this
      | cons t2 ts2 =>
        have hnc : ¬ cfg.debounce_frames ≤ s.debounce_counter + 1 := by
          simp only [List.length_cons] at hcnt
          omega
        have hstep := update_step_nonconfirm cfg s r t hne hp.symm hnc
        exact iter_transition cfg r (t2 :: ts2) (update cfg s (some r) t).1
          (by rw [hstep.1]; exact hne)
          (by rw [hstep.2.1]; exact hp)
          (by rw [hstep.2.2]; simp only [List.length_cons] at hcnt ⊢; omega)
          (by simp)

/-- Claim C3: with a confirmed current gesture G and the identical
classification G' ≠ G fed for `debounce_frames` consecutive updates
(starting with no pending candidacy for G'), `current_gesture` is still
G after every proper prefix of the run and becomes G' exactly on the Nth
update (N = debounce_frames); moreover a differing candidate resets the
pending counter to 1 and records the candidate. -/
theorem debounce_nth_transition :
    (∀ (cfg : GesturesConfig) (s : TrackerState) (r : GestureResult) (ts : List ℚ),
      1 ≤ cfg.debounce_frames →
      r.gesture ≠ s.current_gesture →
      r.gesture ≠ s.pending_gesture →
      ts.length = cfg.debounce_frames →
      ((∀ k, k < cfg.debounce_frames →
          (iterUpdate cfg s (some r) (ts.take k)).current_gesture
            = s.current_gesture) ∧
        (iterUpdate cfg s (some r) ts).current_gesture = r.gesture)) ∧
    (∀ (cfg : GesturesConfig) (s : TrackerState) (r : GestureResult) (now : ℚ),
      r.gesture ≠ s.current_gesture →
      r.gesture ≠ s.pending_gesture →
      1 < cfg.debounce_frames →
      (update cfg s (some r) now).1.debounce_counter = 1 ∧
      (update cfg s (some r) now).1.pending_gesture = r.gesture) := by
  constructor
  · intro cfg s r ts hN hne hpne hlen
    cases ts with
    | nil =>
      exfalso
      simp only [List.length_nil] at hlen
      omega
    | cons t ts =>
      by_cases h1 : cfg.debounce_frames ≤ 1
      · -- N = 1: the single update confirms immediately
        have hN1 : cfg.debounce_frames = 1 := le_antisymm h1 hN
        have hlen0 : ts.length = 0 := by
          simp only [List.length_cons] at hlen
          omega
        have hnil : ts = [] := List.eq_nil_of_length_eq_zero hlen0
        subst hnil
        constructor
        · intro k hk
          have hk0 : k = 0 := by omega
          subst hk0
          simp [iterUpdate]
        · have := update_step_first_confirm cfg s r t hne hpne h1
          simpa [iterUpdate] using this
      · -- N ≥ 2
        have hstep := update_step_first_non cfg s r t hne hpne h1
        constructor
        · intro k hk
          cases k with
          | zero => simp [iterUpdate]
          | succ k =>
            have hkeep := iter_keeps_current cfg r (ts.take k)
              (update cfg s (some r) t).1
              (by rw [hstep.1]; exact hne)
              hstep.2.1
              (by
                rw [hstep.2.2]
                have hts : ts.length = cfg.debounce_frames - 1 := by
                  simp only [List.length_cons] at hlen
                  omega
                simp only [List.length_take, hts]
                omega)
            show (iterUpdate cfg (update cfg s (some r) t).1 (some r)
              (ts.take k)).current_gesture = _
            rw [hkeep.1, hstep.1]
        · show (iterUpdate cfg (update cfg s (some r) t).1 (some r)
            ts).current_gesture = _
          exact iter_transition cfg r ts (update cfg s (some r) t).1
            (by rw [hstep.1]; exact hne)
            hstep.2.1
            (by
              rw [hstep.2.2]
              simp only [List.length_cons] at hlen
              omega)
            (by
              simp only [List.length_cons] at hlen
              omega)
  · intro cfg s r now hne hpne h1
    have hstep := update_step_first_non cfg s r now hne hpne (by omega)
    exact ⟨hstep.2.2, hstep.2.1⟩

/-- Witness for `debounce_nth_transition`: the default config
(debounce_frames = 5) with a confirmed FIST and five OPEN_PALM updates:
still FIST after four, OPEN_PALM after the fifth; and the first
differing update records the candidate with counter 1. -/
theorem debounce_nth_transition_witness :
    (iterUpdate cfgDefault { current_gesture := GestureType.FIST } (some grOpenPalm)
        ([1, 2, 3, 4, 5].take 4)).current_gesture = GestureType.FIST ∧
    (iterUpdate cfgDefault { current_gesture := GestureType.FIST } (some grOpenPalm)
        [1, 2, 3, 4, 5]).current_gesture = GestureType.OPEN_PALM ∧
    (update cfgDefault { current_gesture := GestureType.FIST } (some grOpenPalm)
        1).1.debounce_counter = 1 := by
  have h := debounce_nth_transition.1 cfgDefault
    { current_gesture := GestureType.FIST } grOpenPalm [1, 2, 3, 4, 5]
    (by decide) (by decide) (by decide) (by decide)
  have h2 := debounce_nth_transition.2 cfgDefault
    { current_gesture := GestureType.FIST } grOpenPalm 1
    (by decide) (by decide) (by decide)
  exact ⟨h.1 4 (by decide), h.2, h2.1⟩

end GestureHud
